import Mathlib

/-!
Verification of the hanorm statement-building and transaction-coordination
layer (the `HanORM` class in src, a TypeScript MySQL ORM).

The embedding is shallow: each SQL-building method becomes a pure Lean
function on the same data (JS objects become ordered association lists,
which is how JS enumerates string-keyed properties; optional parameters
become `Option`; JS truthiness of a number is `≠ 0`, of a string is `≠ ""`).
Template-literal whitespace is reproduced exactly.  Methods that talk to the
driver are modelled by the trace of driver calls they make
(`beginTransaction` / `execute` / `commit` / `rollback` / `release`),
together with the instance's `transactionConnection` field
(`Option Unit`, `none` = JS `null`).
-/

namespace HanORM

/-- A scalar value supplied by the caller in a field or condition map
(the JS `any` narrowed to the scalar kinds the mysql2 driver accepts). -/
inductive Value where
  | vNull : Value
  | vInt : Int → Value
  | vStr : String → Value
  deriving DecidableEq, Repr

/-- Modelled from the spec: the value-to-SQL-literal escape routine `escape`
imported by the source from the external mysql2 driver (not part of this
repository).  The spec describes it as "a literal-escaping formatter
equivalent to the underlying driver's own value-to-SQL-literal escape
routine": strings are single-quoted with the driver's backslash escapes,
numbers render bare, null renders as the keyword NULL. -/
def escapeChar (c : Char) : String :=
  if c = Char.ofNat 0 then "\\0"
  else if c = Char.ofNat 8 then "\\b"
  else if c = Char.ofNat 9 then "\\t"
  else if c = Char.ofNat 26 then "\\Z"
  else if c = Char.ofNat 10 then "\\n"
  else if c = Char.ofNat 13 then "\\r"
  else if c = Char.ofNat 34 then "\\\""
  else if c = Char.ofNat 39 then "\\\x27"
  else if c = Char.ofNat 92 then "\\\\"
  else String.singleton c

/-- Modelled from the spec: mysql2's `escape` on one scalar value. -/
def escape : Value → String
  | Value.vNull => "NULL"
  | Value.vInt n => toString n
  | Value.vStr s => "\x27" ++ String.join (s.toList.map escapeChar) ++ "\x27"

/-- How a JS template literal renders a value (`${defaultValue}`):
`null` prints as "null", numbers bare, strings verbatim. -/
def jsToString : Value → String
  | Value.vNull => "null"
  | Value.vInt n => toString n
  | Value.vStr s => s

/-- From `HanORM.create`: the `insertEntityQuery` template literal, with
column names in the field map's iteration order and one `?` placeholder
per field. -/
def insertQuery (entityName : String) (fields : List (String × Value)) : String :=
  "\n      INSERT INTO " ++ entityName ++ " (" ++
    String.intercalate ", " (fields.map Prod.fst) ++
    ")\n      VALUES (" ++
    String.intercalate ", " (fields.map (fun _ => "?")) ++ ")\n    "

/-- From `HanORM.create`: the (sql, params) pair handed to `executeQuery`
(params are `Object.values(fields)`). -/
def create (entityName : String) (fields : List (String × Value)) :
    String × List Value :=
  (insertQuery entityName fields, fields.map Prod.snd)

/-- From `HanORM.update`: the `updateEntityQuery` template literal. -/
def updateQuery (entityName : String) (fields : List (String × Value)) : String :=
  "\n      UPDATE " ++ entityName ++ "\n      SET " ++
    String.intercalate ", " (fields.map (fun kv => kv.1 ++ " = ?")) ++
    "\n      WHERE id = ?\n    "

/-- From `HanORM.update`: (sql, params), the id appended after the values. -/
def update (entityName : String) (id : Int) (fields : List (String × Value)) :
    String × List Value :=
  (updateQuery entityName fields, fields.map Prod.snd ++ [Value.vInt id])

/-- From `HanORM.delete`: the `deleteEntityQuery` string. -/
def deleteQuery (entityName : String) : String :=
  "DELETE FROM " ++ entityName ++ " WHERE id = ?"

/-- From `HanORM.delete`: (sql, params). -/
def delete (entityName : String) (id : Int) : String × List Value :=
  (deleteQuery entityName, [Value.vInt id])

/-- From `HanORM.find`/`HanORM.count`: `conditionString`.  A present
conditions object renders `WHERE k = <escaped literal> AND ...` with the
values interpolated into the text; an absent one renders "". -/
def conditionString (conditions : Option (List (String × Value))) : String :=
  match conditions with
  | some conds =>
      "WHERE " ++ String.intercalate " AND "
        (conds.map (fun kv => kv.1 ++ " = " ++ escape kv.2))
  | none => ""

/-- The `'asc' | 'desc'` union type of `HanORM.find`'s `sortOrder`. -/
inductive SortOrder where
  | asc : SortOrder
  | desc : SortOrder
  deriving DecidableEq, Repr

/-- `sortOrder.toUpperCase()`. -/
def SortOrder.toUpperCase : SortOrder → String
  | SortOrder.asc => "ASC"
  | SortOrder.desc => "DESC"

/-- From `HanORM.find`: `orderByClause`; `sortBy && sortOrder` is JS
truthiness, so the clause appears only when `sortBy` is present and
non-empty and `sortOrder` is present. -/
def orderByClause : Option String → Option SortOrder → String
  | some sb, some so =>
      if sb = "" then "" else "ORDER BY " ++ sb ++ " " ++ so.toUpperCase
  | _, _ => ""

/-- From `HanORM.find`: `limitClause`; `pageSize && page` is JS truthiness
on numbers, so the clause appears exactly when both are present and
non-zero, and then reads `LIMIT pageSize OFFSET (page - 1) * pageSize`. -/
def limitClause : Option Int → Option Int → String
  | some page, some pageSize =>
      if pageSize ≠ 0 ∧ page ≠ 0 then
        "LIMIT " ++ toString pageSize ++ " OFFSET " ++
          toString ((page - 1) * pageSize)
      else ""
  | _, _ => ""

/-- `fields?.length ? fields : '*'` (empty or absent field string ⇒ `*`). -/
def selectFieldsOrStar : Option String → String
  | some f => if f = "" then "*" else f
  | none => "*"

/-- From `HanORM.find`: the `selectEntitiesQuery` template literal. -/
def findQuery (entityName : String) (conditions : Option (List (String × Value)))
    (fields : Option String) (page pageSize : Option Int)
    (sortBy : Option String) (sortOrder : Option SortOrder) : String :=
  "\n        SELECT " ++ selectFieldsOrStar fields ++
    "\n        FROM " ++ entityName ++
    "\n        " ++ conditionString conditions ++
    "\n        " ++ orderByClause sortBy sortOrder ++
    "\n        " ++ limitClause page pageSize ++
    "\n      "

/-- From `HanORM.find`: (sql, params); `executeQuery` is called without a
params argument, so the parameter list is empty. -/
def find (entityName : String) (conditions : Option (List (String × Value)))
    (fields : Option String) (page pageSize : Option Int)
    (sortBy : Option String) (sortOrder : Option SortOrder) :
    String × List Value :=
  (findQuery entityName conditions fields page pageSize sortBy sortOrder, [])

/-- From `HanORM.count`: the `countQuery` string. -/
def countQuery (entityName : String)
    (conditions : Option (List (String × Value))) : String :=
  "SELECT COUNT(*) AS count FROM " ++ entityName ++ " " ++
    conditionString conditions

/-- From `HanORM.count`: (sql, params); params are empty. -/
def count (entityName : String)
    (conditions : Option (List (String × Value))) : String × List Value :=
  (countQuery entityName conditions, [])

/-- The `'INNER' | 'LEFT' | 'RIGHT'` union type `JoinType`. -/
inductive JoinType where
  | INNER : JoinType
  | LEFT : JoinType
  | RIGHT : JoinType
  deriving DecidableEq, Repr

/-- `joinType.toUpperCase()` (the union members are already uppercase). -/
def JoinType.toUpperCase : JoinType → String
  | JoinType.INNER => "INNER"
  | JoinType.LEFT => "LEFT"
  | JoinType.RIGHT => "RIGHT"

/-- From `HanORM.join`: the `joinQuery` template literal;
`selectFields !== undefined ? selectFields?.join(', ') : '*'` and
`joinConditions.join(' AND ')`, with no validation of either list. -/
def joinQuery (joinType : JoinType) (table1 table2 : String)
    (joinConditions : List String) (selectFields : Option (List String)) :
    String :=
  "\n      SELECT " ++
    (match selectFields with
      | some fs => String.intercalate ", " fs
      | none => "*") ++
    "\n      FROM " ++ table1 ++
    "\n      " ++ joinType.toUpperCase ++ " JOIN " ++ table2 ++ " ON " ++
    String.intercalate " AND " joinConditions ++ "\n    "

/-- The `FieldDefinition` interface (plus the `check`/`comment` properties
that `createTable` destructures even though the interface omits them). -/
structure FieldDefinition where
  type : String
  size : Option Nat := none
  unique : Bool := false
  nullable : Option Bool := none
  primary : Bool := false
  autoIncrement : Bool := false
  defaultValue : Option Value := none
  check : Option String := none
  comment : Option String := none
  deriving DecidableEq, Repr

/-- From `HanORM.createTable`: the `constraints` array pushed for one field,
in source order.  `if (nullable)` is truthy only for `true`;
`if (nullable === undefined)` only for an absent value; an explicit `false`
pushes neither.  `check`/`comment` are guarded by string truthiness and
`defaultValue` by `!== undefined`. -/
def fieldConstraints (f : FieldDefinition) : List String :=
  (if f.unique then ["UNIQUE"] else []) ++
    (if f.primary then ["PRIMARY KEY"] else []) ++
    (if f.nullable = some true then ["NULL"] else []) ++
    (if f.nullable = none then ["NOT NULL"] else []) ++
    (if f.autoIncrement then ["AUTO_INCREMENT"] else []) ++
    (match f.defaultValue with
      | some v => ["DEFAULT " ++ jsToString v]
      | none => []) ++
    (match f.check with
      | some c => if c = "" then [] else ["CHECK (" ++ c ++ ")"]
      | none => []) ++
    (match f.comment with
      | some c => if c = "" then [] else ["COMMENT \x27" ++ c ++ "\x27"]
      | none => [])

/-- From `HanORM.createTable`: one field's column clause,
`${fieldName} ${type}${size ? `(${size})` : ``} ${constraints.join(' ')}`
(size 0 is falsy). -/
def fieldClause (fieldName : String) (f : FieldDefinition) : String :=
  fieldName ++ " " ++ f.type ++
    (match f.size with
      | some n => if n = 0 then "" else "(" ++ toString n ++ ")"
      | none => "") ++
    " " ++ String.intercalate " " (fieldConstraints f)

/-- From `HanORM.createTable`: the `createTableQuery` template literal, with
the injected `id INT AUTO_INCREMENT PRIMARY KEY` column ahead of the
user-defined column clauses. -/
def createTableQuery (entityName : String)
    (fields : List (String × FieldDefinition)) : String :=
  "\n    CREATE TABLE IF NOT EXISTS " ++ entityName ++
    " (\n      id INT AUTO_INCREMENT PRIMARY KEY,\n      " ++
    String.intercalate ", " (fields.map (fun kv => fieldClause kv.1 kv.2)) ++
    "\n    )\n  "

/-- One call the ORM makes on the driver (the connection provider). -/
inductive DbEvent where
  | beginTx : DbEvent
  | execute : String → List Value → DbEvent
  | commit : DbEvent
  | rollback : DbEvent
  | release : DbEvent
  deriving DecidableEq, Repr

/-- From `HanORM.startTransaction`: acquires a connection, issues
`beginTransaction`, and unconditionally overwrites
`this.transactionConnection` (no check of an existing handle). -/
def startTransaction (_tx : Option Unit) : List DbEvent × Option Unit :=
  ([DbEvent.beginTx], some ())

/-- From `HanORM.commitTransaction`: `if (!this.transactionConnection)
return;` — a no-op on a null handle; otherwise commit, release, and clear
the handle. -/
def commitTransaction : Option Unit → List DbEvent × Option Unit
  | none => ([], none)
  | some _ => ([DbEvent.commit, DbEvent.release], none)

/-- From `HanORM.rollbackTransaction`: the same shape as commit. -/
def rollbackTransaction : Option Unit → List DbEvent × Option Unit
  | none => ([], none)
  | some _ => ([DbEvent.rollback, DbEvent.release], none)

/-- From `HanORM.executeQuery` when handed a transaction connection: the
statement is executed and the `finally` block releases the connection. -/
def executeQueryEvents (sql : String) (params : List Value) : List DbEvent :=
  [DbEvent.execute sql params, DbEvent.release]

/-- The driver calls one iteration of `createMany`'s loop makes for one row. -/
def insertRowEvents (entityName : String) (f : List (String × Value)) :
    List DbEvent :=
  executeQueryEvents (insertQuery entityName f) (f.map Prod.snd)

/-- From `HanORM.createMany`'s `try` block: the per-row loop followed by
`commitTransaction`, with `rollbackTransaction` on a failure.  `failAt`
is the failure oracle: `some k` means the k-th remaining row's INSERT is
rejected by the driver (all earlier ones succeed); `none` means every
INSERT succeeds.  Returns (driver events, handle after, error re-raised). -/
def createManyLoop (entityName : String) :
    List (List (String × Value)) → Option Nat → Option Unit →
    List DbEvent × Option Unit × Bool
  | [], _, tx =>
      let (e, tx1) := commitTransaction tx
      (e, tx1, false)
  | f :: rest, failAt, tx =>
      let ev := insertRowEvents entityName f
      if failAt = some 0 then
        let (e2, tx1) := rollbackTransaction tx
        (ev ++ e2, tx1, true)
      else
        let (e3, tx2, err) :=
          createManyLoop entityName rest
            (match failAt with
              | some (n + 1) => some n
              | _ => none) tx
        (ev ++ e3, tx2, err)

/-- From `HanORM.createMany`: `startTransaction`, the row loop, commit on
success / rollback-and-rethrow on failure. -/
def createMany (entityName : String) (entities : List (List (String × Value)))
    (failAt : Option Nat) : List DbEvent × Bool :=
  let (es, tx) := startTransaction none
  let (es2, _, err) := createManyLoop entityName entities failAt tx
  (es ++ es2, err)

/-- From `HanORM.deleteMany`'s loop body: one per-id DELETE via the
transaction connection, followed (inside the loop) by `commitTransaction`
on the instance handle. -/
def deleteManyLoop (entityName : String) :
    List Int → Option Unit → List DbEvent × Option Unit
  | [], tx => ([], tx)
  | id :: rest, tx =>
      let e1 := executeQueryEvents (deleteQuery entityName) [Value.vInt id]
      let (e2, tx1) := commitTransaction tx
      let (e3, tx2) := deleteManyLoop entityName rest tx1
      (e1 ++ e2 ++ e3, tx2)

/-- From `HanORM.deleteMany`: `startTransaction` and the loop (the
error-free trace; the commit sits inside the loop in the source). -/
def deleteMany (entityName : String) (ids : List Int) : List DbEvent :=
  let (es, tx) := startTransaction none
  let (es2, _) := deleteManyLoop entityName ids tx
  es ++ es2

/-- The `ConnectionOptions` interface; optional JS properties are `Option`,
with `none` standing for an absent/deleted key. -/
structure ConnectionOptions where
  connectionLimit : Option Int := none
  host : String
  user : String
  password : String
  database : String
  sync : Option Bool := none
  logging : Option Bool := none
  deriving DecidableEq, Repr

/-- The `PoolOptions` object built by the constructor. -/
structure PoolOptions where
  connectionLimit : Int
  host : String
  user : String
  password : String
  database : String
  deriving DecidableEq, Repr

/-- The instance state the constructor establishes, together with the
caller's options object as it stands after construction (the source keeps
and mutates the very object the caller passed in). -/
structure HanORMState where
  sync : Bool
  logging : Bool
  poolConfig : PoolOptions
  connectionOptions : ConnectionOptions
  deriving DecidableEq, Repr

/-- From `HanORM.constructor`: read `sync`/`logging` with `?? false`,
`delete` both keys from the caller's options object, then build the pool
config from the mutated object (`connectionLimit || 10` is JS truthiness,
so 0 also falls back to 10). -/
def construct (connectionOptions : ConnectionOptions) : HanORMState :=
  let sync := connectionOptions.sync.getD false
  let logging := connectionOptions.logging.getD false
  let connectionOptions :=
    { connectionOptions with sync := none, logging := none }
  let poolConfig : PoolOptions :=
    { connectionLimit :=
        match connectionOptions.connectionLimit with
        | some n => if n = 0 then 10 else n
        | none => 10
      host := connectionOptions.host
      user := connectionOptions.user
      password := connectionOptions.password
      database := connectionOptions.database }
  { sync := sync, logging := logging, poolConfig := poolConfig,
    connectionOptions := connectionOptions }

/-- Count of `?` placeholder characters in a piece of SQL text. -/
def countQMarks (s : String) : Nat := s.toList.count '?'

/-! ## Helper lemmas -/

theorem str_eq_empty_of_length_zero (s : String) (h : s.length = 0) : s = "" := by
  cases s with
  | mk d =>
      cases d with
      | nil => rfl
      | cons a l => simp [String.length] at h

theorem null_ne_default (s : String) : ¬ ("NULL" = "DEFAULT " ++ s) := by
  intro h
  have hl := congrArg String.length h
  rw [String.length_append] at hl
  have h1 : ("NULL" : String).length = 4 := by decide
  have h2 : ("DEFAULT " : String).length = 8 := by decide
  rw [h1, h2] at hl
  omega

theorem notnull_ne_default (s : String) : ¬ ("NOT NULL" = "DEFAULT " ++ s) := by
  intro h
  have hl := congrArg String.length h
  rw [String.length_append] at hl
  have h1 : ("NOT NULL" : String).length = 8 := by decide
  have h2 : ("DEFAULT " : String).length = 8 := by decide
  rw [h1, h2] at hl
  have hs : s.length = 0 := by omega
  rw [str_eq_empty_of_length_zero s hs] at h
  exact absurd h (by decide)

theorem null_ne_check (c : String) : ¬ ("NULL" = "CHECK (" ++ c ++ ")") := by
  intro h
  have hl := congrArg String.length h
  rw [String.length_append, String.length_append] at hl
  have h1 : ("NULL" : String).length = 4 := by decide
  have h2 : ("CHECK (" : String).length = 7 := by decide
  have h3 : (")" : String).length = 1 := by decide
  rw [h1, h2, h3] at hl
  omega

theorem notnull_ne_check (c : String) : ¬ ("NOT NULL" = "CHECK (" ++ c ++ ")") := by
  intro h
  have hl := congrArg String.length h
  rw [String.length_append, String.length_append] at hl
  have h1 : ("NOT NULL" : String).length = 8 := by decide
  have h2 : ("CHECK (" : String).length = 7 := by decide
  have h3 : (")" : String).length = 1 := by decide
  rw [h1, h2, h3] at hl
  have hc : c.length = 0 := by omega
  rw [str_eq_empty_of_length_zero c hc] at h
  exact absurd h (by decide)

theorem null_ne_comment (c : String) : ¬ ("NULL" = "COMMENT \x27" ++ c ++ "\x27") := by
  intro h
  have hl := congrArg String.length h
  rw [String.length_append, String.length_append] at hl
  have h1 : ("NULL" : String).length = 4 := by decide
  have h2 : ("COMMENT \x27" : String).length = 9 := by decide
  have h3 : ("\x27" : String).length = 1 := by decide
  rw [h1, h2, h3] at hl
  omega

theorem notnull_ne_comment (c : String) : ¬ ("NOT NULL" = "COMMENT \x27" ++ c ++ "\x27") := by
  intro h
  have hl := congrArg String.length h
  rw [String.length_append, String.length_append] at hl
  have h1 : ("NOT NULL" : String).length = 8 := by decide
  have h2 : ("COMMENT \x27" : String).length = 9 := by decide
  have h3 : ("\x27" : String).length = 1 := by decide
  rw [h1, h2, h3] at hl
  omega

/-- The NULL constraint appears in a column clause exactly for `nullable: true`. -/
theorem null_mem_iff (f : FieldDefinition) :
    "NULL" ∈ fieldConstraints f ↔ f.nullable = some true := by
  obtain ⟨ty, sz, uq, nb, pr, ai, dv, ck, cm⟩ := f
  simp only [fieldConstraints, List.mem_append, or_assoc]
  constructor
  · rintro (h | h | h | h | h | h | h | h)
    · revert h; split <;> (intro h; exact absurd h (by decide))
    · revert h; split <;> (intro h; exact absurd h (by decide))
    · revert h
      split
      · intro h2
        assumption
      · intro h; exact absurd h (by decide)
    · revert h; split <;> (intro h; exact absurd h (by decide))
    · revert h; split <;> (intro h; exact absurd h (by decide))
    · rcases dv with _ | v
      · exact absurd h (by decide)
      · simp only [List.mem_singleton] at h
        exact absurd h (null_ne_default (jsToString v))
    · rcases ck with _ | c
      · exact absurd h (by decide)
      · dsimp only at h
        by_cases hc : c = ""
        · rw [if_pos hc] at h
          exact absurd h (by decide)
        · rw [if_neg hc] at h
          simp only [List.mem_singleton] at h
          exact absurd h (null_ne_check c)
    · rcases cm with _ | m
      · exact absurd h (by decide)
      · dsimp only at h
        by_cases hm : m = ""
        · rw [if_pos hm] at h
          exact absurd h (by decide)
        · rw [if_neg hm] at h
          simp only [List.mem_singleton] at h
          exact absurd h (null_ne_comment m)
  · intro h
    refine Or.inr (Or.inr (Or.inl ?_))
    simp only [h]
    decide

/-- The NOT NULL constraint appears exactly for an absent `nullable`. -/
theorem notnull_mem_iff (f : FieldDefinition) :
    "NOT NULL" ∈ fieldConstraints f ↔ f.nullable = none := by
  obtain ⟨ty, sz, uq, nb, pr, ai, dv, ck, cm⟩ := f
  simp only [fieldConstraints, List.mem_append, or_assoc]
  constructor
  · rintro (h | h | h | h | h | h | h | h)
    · revert h; split <;> (intro h; exact absurd h (by decide))
    · revert h; split <;> (intro h; exact absurd h (by decide))
    · revert h; split <;> (intro h; exact absurd h (by decide))
    · revert h
      split
      · intro h2
        assumption
      · intro h; exact absurd h (by decide)
    · revert h; split <;> (intro h; exact absurd h (by decide))
    · rcases dv with _ | v
      · exact absurd h (by decide)
      · simp only [List.mem_singleton] at h
        exact absurd h (notnull_ne_default (jsToString v))
    · rcases ck with _ | c
      · exact absurd h (by decide)
      · dsimp only at h
        by_cases hc : c = ""
        · rw [if_pos hc] at h
          exact absurd h (by decide)
        · rw [if_neg hc] at h
          simp only [List.mem_singleton] at h
          exact absurd h (notnull_ne_check c)
    · rcases cm with _ | m
      · exact absurd h (by decide)
      · dsimp only at h
        by_cases hm : m = ""
        · rw [if_pos hm] at h
          exact absurd h (by decide)
        · rw [if_neg hm] at h
          simp only [List.mem_singleton] at h
          exact absurd h (notnull_ne_comment m)
  · intro h
    refine Or.inr (Or.inr (Or.inr (Or.inl ?_)))
    simp only [h]
    decide

theorem countQMarks_append (a b : String) :
    countQMarks (a ++ b) = countQMarks a + countQMarks b := by
  simp [countQMarks, String.toList, String.data_append, List.count_append]

theorem countQMarks_go (sep : String) (as : List String) :
    ∀ acc, countQMarks (String.intercalate.go acc sep as) =
      countQMarks acc + (as.map countQMarks).sum + as.length * countQMarks sep := by
  induction as with
  | nil => intro acc; simp [String.intercalate.go]
  | cons a as ih =>
      intro acc
      simp only [String.intercalate.go, ih, List.map_cons, List.sum_cons,
        List.length_cons, countQMarks_append]
      ring

theorem countQMarks_intercalate (sep : String) (xs : List String) :
    countQMarks (String.intercalate sep xs) =
      (xs.map countQMarks).sum + (xs.length - 1) * countQMarks sep := by
  cases xs with
  | nil => simp [String.intercalate, countQMarks]
  | cons a as =>
      simp only [String.intercalate, countQMarks_go, List.map_cons, List.sum_cons,
        List.length_cons, Nat.add_sub_cancel]

theorem countQMarks_placeholders (l : List (String × Value)) :
    ((l.map (fun _ => ("?" : String))).map countQMarks).sum = l.length := by
  induction l with
  | nil => rfl
  | cons a t ih =>
      simp only [List.map_cons, List.sum_cons, ih, List.length_cons]
      have h1 : countQMarks "?" = 1 := by decide
      omega

theorem commit_not_mem_insert_flatten (t : String)
    (rs : List (List (String × Value))) :
    DbEvent.commit ∉ (rs.map (insertRowEvents t)).flatten := by
  simp [List.mem_flatten, insertRowEvents, executeQueryEvents]

theorem createManyLoop_none (t : String) (rows : List (List (String × Value))) :
    createManyLoop t rows none (some ()) =
      ((rows.map (insertRowEvents t)).flatten ++ [DbEvent.commit, DbEvent.release],
        none, false) := by
  induction rows with
  | nil => rfl
  | cons r rest ih => simp [createManyLoop, ih, List.flatten, List.append_assoc]

theorem createManyLoop_fail (t : String) :
    ∀ (rows : List (List (String × Value))) (i : Nat), i < rows.length →
    createManyLoop t rows (some i) (some ()) =
      (((rows.take (i + 1)).map (insertRowEvents t)).flatten ++
          [DbEvent.rollback, DbEvent.release], none, true) := by
  intro rows
  induction rows with
  | nil => intro i hi; simp at hi
  | cons r rest ih =>
      intro i hi
      cases i with
      | zero => simp [createManyLoop, rollbackTransaction, List.take, List.flatten]
      | succ n =>
          have hn : n < rest.length := by simpa using hi
          simp [createManyLoop, ih n hn, List.take, List.flatten, List.append_assoc]

theorem limit_text_ne_empty (a b : String) :
    "LIMIT " ++ a ++ " OFFSET " ++ b ≠ "" := by
  intro h
  have hl := congrArg String.length h
  rw [String.length_append, String.length_append, String.length_append] at hl
  have h1 : ("LIMIT " : String).length = 6 := by decide
  have h2 : (" OFFSET " : String).length = 8 := by decide
  have h3 : ("" : String).length = 0 := by decide
  rw [h1, h2, h3] at hl
  omega

theorem insertQuery_names_only (t : String) (fields fields' : List (String × Value))
    (hk : fields.map Prod.fst = fields'.map Prod.fst) :
    insertQuery t fields = insertQuery t fields' := by
  have hlen : fields.length = fields'.length := by
    have h := congrArg List.length hk
    simpa using h
  unfold insertQuery
  rw [hk, List.map_const', List.map_const', hlen]

theorem updateQuery_names_only (t : String) (fields fields' : List (String × Value))
    (hk : fields.map Prod.fst = fields'.map Prod.fst) :
    updateQuery t fields = updateQuery t fields' := by
  have h : ∀ l : List (String × Value),
      l.map (fun kv => kv.1 ++ " = ?") =
        (l.map Prod.fst).map (fun n => n ++ " = ?") := by
    intro l
    rw [List.map_map]
    rfl
  unfold updateQuery
  rw [h, h, hk]

/-! ## Claim theorems -/

/-- C1 (defect in the source, kept as the spec states the intended
behaviour): the claim says `deleteMany` issues exactly one commit for the
whole batch, performed after all per-id DELETE statements.  The code calls
`commitTransaction()` inside the per-id loop, so on `ids = [1,2,3]` the
single COMMIT (later calls are no-ops on the cleared handle) is issued
right after the first DELETE, and the DELETEs for ids 2 and 3 execute
after it: the commit's index in the trace precedes the index of the DELETE
for id 3. -/
theorem deleteMany_commit_placement_bug :
    deleteMany "users" [1, 2, 3] =
      [DbEvent.beginTx,
       DbEvent.execute (deleteQuery "users") [Value.vInt 1], DbEvent.release,
       DbEvent.commit, DbEvent.release,
       DbEvent.execute (deleteQuery "users") [Value.vInt 2], DbEvent.release,
       DbEvent.execute (deleteQuery "users") [Value.vInt 3], DbEvent.release] ∧
    (deleteMany "users" [1, 2, 3]).count DbEvent.commit = 1 ∧
    List.indexOf DbEvent.commit (deleteMany "users" [1, 2, 3]) <
      List.indexOf (DbEvent.execute (deleteQuery "users") [Value.vInt 3])
        (deleteMany "users" [1, 2, 3]) :=
  ⟨by decide, by decide, by decide⟩

/-- C2: `createMany` opens one transaction, executes one INSERT per row
sequentially in input order, commits exactly once when every row succeeds,
and on a failing row rolls back and re-raises the error without
committing (so no row of the batch is visible outside the transaction). -/
theorem createMany_transaction_spec (t : String)
    (rows : List (List (String × Value))) :
    ((createMany t rows none).1 =
        DbEvent.beginTx ::
          ((rows.map (insertRowEvents t)).flatten ++
            [DbEvent.commit, DbEvent.release]) ∧
      (createMany t rows none).2 = false ∧
      (createMany t rows none).1.count DbEvent.commit = 1) ∧
    (∀ i, i < rows.length →
      (createMany t rows (some i)).1 =
        DbEvent.beginTx ::
          (((rows.take (i + 1)).map (insertRowEvents t)).flatten ++
            [DbEvent.rollback, DbEvent.release]) ∧
      (createMany t rows (some i)).2 = true ∧
      (createMany t rows (some i)).1.count DbEvent.commit = 0) := by
  constructor
  · have h := createManyLoop_none t rows
    refine ⟨?_, ?_, ?_⟩
    · simp [createMany, startTransaction, h]
    · simp [createMany, startTransaction, h]
    · have hm := commit_not_mem_insert_flatten t rows
      simp [createMany, startTransaction, h, List.count_append,
        List.count_cons, List.count_eq_zero.mpr hm]
  · intro i hi
    have h := createManyLoop_fail t rows i hi
    refine ⟨?_, ?_, ?_⟩
    · simp [createMany, startTransaction, h]
    · simp [createMany, startTransaction, h]
    · have hm : DbEvent.commit ∉
          ((rows.map (insertRowEvents t)).take (i + 1)).flatten := by
        have h2 := commit_not_mem_insert_flatten t (rows.take (i + 1))
        rwa [List.map_take] at h2
      simp [createMany, startTransaction, h, List.count_append,
        List.count_cons, List.count_eq_zero.mpr hm]

/-- C2 witness: two rows where the second INSERT fails — the error is
re-raised and no commit appears in the trace. -/
theorem createMany_transaction_spec_witness :
    (createMany "users"
      [[("name", Value.vStr "A")], [("name", Value.vStr "B")]] (some 1)).2 = true ∧
    (createMany "users"
      [[("name", Value.vStr "A")], [("name", Value.vStr "B")]]
        (some 1)).1.count DbEvent.commit = 0 := by
  have h := (createMany_transaction_spec "users"
    [[("name", Value.vStr "A")], [("name", Value.vStr "B")]]).2 1 (by decide)
  exact ⟨h.2.1, h.2.2⟩

/-- C3: for a non-empty field map whose identifiers are ?-free, the INSERT
built by `create` contains exactly one `?` placeholder per field, passes
the field values as the parameter list in map order, and lists the field
names in the map's iteration order inside the statement. -/
theorem create_insert_spec (entityName : String) (fields : List (String × Value))
    (_hne : fields ≠ [])
    (ht : countQMarks entityName = 0)
    (hn : ∀ p ∈ fields, countQMarks p.1 = 0) :
    countQMarks (create entityName fields).1 = fields.length ∧
    (create entityName fields).2 = fields.map Prod.snd ∧
    ∃ pre post, (create entityName fields).1 =
      pre ++ String.intercalate ", " (fields.map Prod.fst) ++ post := by
  refine ⟨?_, rfl, ?_⟩
  · show countQMarks (insertQuery entityName fields) = _
    unfold insertQuery
    rw [countQMarks_append, countQMarks_append, countQMarks_append,
      countQMarks_append, countQMarks_append, countQMarks_append,
      countQMarks_intercalate, countQMarks_intercalate]
    have h1 : countQMarks "\n      INSERT INTO " = 0 := by decide
    have h2 : countQMarks " (" = 0 := by decide
    have h3 : countQMarks ")\n      VALUES (" = 0 := by decide
    have h4 : countQMarks ")\n    " = 0 := by decide
    have h5 : countQMarks ", " = 0 := by decide
    have h6 : ((fields.map Prod.fst).map countQMarks).sum = 0 := by
      apply List.sum_eq_zero
      intro x hx
      simp only [List.map_map, List.mem_map] at hx
      obtain ⟨p, hp, rfl⟩ := hx
      exact hn p hp
    have h7 := countQMarks_placeholders fields
    rw [h1, h2, h3, h4, h5, ht, h6, h7]
    have hlen : (fields.map Prod.fst).length = fields.length := List.length_map _ _
    have hlen2 : (fields.map (fun _ => ("?" : String))).length = fields.length :=
      List.length_map _ _
    rw [hlen, hlen2]
    omega
  · exact ⟨"\n      INSERT INTO " ++ entityName ++ " (",
      ")\n      VALUES (" ++
        String.intercalate ", " (fields.map (fun _ => "?")) ++ ")\n    ",
      by simp [create, insertQuery, String.append_assoc]⟩

/-- C3 witness: a two-field insert has two placeholders and the two values
as parameters. -/
theorem create_insert_spec_witness :
    countQMarks (create "users"
      [("username", Value.vStr "john_doe"), ("email", Value.vStr "j@e.com")]).1 = 2 ∧
    (create "users"
      [("username", Value.vStr "john_doe"), ("email", Value.vStr "j@e.com")]).2 =
      [("username", Value.vStr "john_doe"),
        ("email", Value.vStr "j@e.com")].map Prod.snd ∧
    ∃ pre post, (create "users"
      [("username", Value.vStr "john_doe"), ("email", Value.vStr "j@e.com")]).1 =
      pre ++ String.intercalate ", "
        ([("username", Value.vStr "john_doe"),
          ("email", Value.vStr "j@e.com")].map Prod.fst) ++ post :=
  create_insert_spec "users"
    [("username", Value.vStr "john_doe"), ("email", Value.vStr "j@e.com")]
    (by decide) (by decide) (by decide)

/-- C4 counterexample: with an empty field map, `create` does not fail —
it builds `INSERT INTO users () VALUES ()` with empty parameters and hands
it to the driver (no SchemaError exists anywhere in the code). -/
theorem create_empty_fields_counterexample :
    create "users" [] = ("\n      INSERT INTO users ()\n      VALUES ()\n    ", []) := by
  decide

/-- C4 amended: `create` performs no emptiness validation; for every table
name the empty field map yields the INSERT statement with empty column and
VALUES lists, an empty parameter list, and no placeholders. -/
theorem create_empty_fields_spec (entityName : String) :
    (create entityName []).1 =
      "\n      INSERT INTO " ++ entityName ++ " (" ++ ")\n      VALUES (" ++ ")\n    " ∧
    (create entityName []).2 = [] ∧
    countQMarks (create entityName []).1 = countQMarks entityName := by
  refine ⟨?_, rfl, ?_⟩
  · show insertQuery entityName [] = _
    unfold insertQuery
    simp [String.intercalate]
  · show countQMarks (insertQuery entityName []) = _
    unfold insertQuery
    simp only [List.map_nil, String.intercalate]
    rw [countQMarks_append, countQMarks_append, countQMarks_append,
      countQMarks_append, countQMarks_append, countQMarks_append]
    have h1 : countQMarks "\n      INSERT INTO " = 0 := by decide
    have h2 : countQMarks " (" = 0 := by decide
    have h3 : countQMarks ")\n      VALUES (" = 0 := by decide
    have h4 : countQMarks ")\n    " = 0 := by decide
    have h5 : countQMarks "" = 0 := by decide
    omega

/-- C5 counterexample: `page = -1`, `pageSize = 10` is not positive, yet
`find` emits `LIMIT 10 OFFSET -20` (the code tests JS truthiness, i.e.
non-zero, not positivity). -/
theorem find_pagination_counterexample :
    findQuery "users" none none (some (-1)) (some 10) none none =
      "\n        SELECT *\n        FROM users\n        \n        \n        LIMIT 10 OFFSET -20\n      " ∧
    ¬ (0 < (-1 : Int)) :=
  ⟨by decide, by decide⟩

/-- C5 amended: `find` emits a LIMIT/OFFSET clause exactly when both `page`
and `pageSize` are present and non-zero (JS truthiness); the clause is then
`LIMIT pageSize OFFSET (page-1)*pageSize`, so page 1 / size 10 gives
OFFSET 0 and page 2 / size 10 gives OFFSET 10; an absent argument omits
the clause entirely, and the find statement embeds exactly this clause. -/
theorem find_pagination_spec (page pageSize : Option Int) :
    (limitClause page pageSize ≠ "" ↔
      ∃ p s, page = some p ∧ pageSize = some s ∧ p ≠ 0 ∧ s ≠ 0) ∧
    (∀ p s : Int, p ≠ 0 → s ≠ 0 →
      limitClause (some p) (some s) =
        "LIMIT " ++ toString s ++ " OFFSET " ++ toString ((p - 1) * s)) ∧
    limitClause (some 1) (some 10) = "LIMIT 10 OFFSET 0" ∧
    limitClause (some 2) (some 10) = "LIMIT 10 OFFSET 10" ∧
    (∀ entityName : String, ∃ pre,
      (find entityName none none page pageSize none none).1 =
        pre ++ limitClause page pageSize ++ "\n      ") := by
  refine ⟨⟨?_, ?_⟩, ?_, by decide, by decide, ?_⟩
  · intro h
    match page, pageSize with
    | none, _ => exact absurd rfl h
    | some p, none => exact absurd rfl h
    | some p, some s =>
        dsimp only [limitClause] at h
        by_cases hc : s ≠ 0 ∧ p ≠ 0
        · exact ⟨p, s, rfl, rfl, hc.2, hc.1⟩
        · rw [if_neg hc] at h
          exact absurd rfl h
  · rintro ⟨p, s, rfl, rfl, hp, hs⟩
    dsimp only [limitClause]
    rw [if_pos ⟨hs, hp⟩]
    exact limit_text_ne_empty _ _
  · intro p s hp hs
    dsimp only [limitClause]
    rw [if_pos ⟨hs, hp⟩]
  · intro entityName
    exact ⟨_, rfl⟩

/-- C5 witness: page 2 with page size 10 renders OFFSET (2-1)*10. -/
theorem find_pagination_spec_witness :
    limitClause (some 2) (some 10) =
      "LIMIT " ++ toString (10 : Int) ++ " OFFSET " ++
        toString (((2 : Int) - 1) * 10) :=
  (find_pagination_spec (some 2) (some 10)).2.1 2 10 (by decide) (by decide)

/-- C6 counterexample: an empty `joinConditions` list does not fail with a
ValidationError — `join` builds a statement whose ON clause is empty and
hands it to the driver. -/
theorem join_empty_conditions_counterexample :
    joinQuery JoinType.INNER "users" "posts" []
      (some ["users.id", "posts.title"]) =
      "\n      SELECT users.id, posts.title\n      FROM users\n      INNER JOIN posts ON \n    " := by
  decide

/-- C6 amended: `join` performs no validation of `joinConditions`: for
every list (empty included) it builds
`SELECT <fields|*> FROM table1 <joinType> JOIN table2 ON <conds joined by AND>`,
and the empty list leaves the text after `ON` empty. -/
theorem join_build_spec (jt : JoinType) (t1 t2 : String) (conds : List String)
    (sf : Option (List String)) :
    joinQuery jt t1 t2 conds sf =
      "\n      SELECT " ++
        (match sf with
          | some fs => String.intercalate ", " fs
          | none => "*") ++
        "\n      FROM " ++ t1 ++ "\n      " ++ jt.toUpperCase ++ " JOIN " ++
        t2 ++ " ON " ++ String.intercalate " AND " conds ++ "\n    " ∧
    (∃ pre, joinQuery jt t1 t2 [] sf = pre ++ " ON " ++ "\n    ") := by
  refine ⟨rfl, ⟨"\n      SELECT " ++
    (match sf with
      | some fs => String.intercalate ", " fs
      | none => "*") ++
    "\n      FROM " ++ t1 ++ "\n      " ++ jt.toUpperCase ++ " JOIN " ++ t2, ?_⟩⟩
  show _ ++ " ON " ++ String.intercalate " AND " [] ++ "\n    " = _
  rw [show String.intercalate " AND " [] = "" from rfl, String.append_empty]

/-- C7: `commitTransaction` and `rollbackTransaction` on a null handle are
no-ops (no events, no throw, handle stays null); on an active handle they
issue exactly COMMIT-then-release or ROLLBACK-then-release and clear the
handle back to null before any new transaction may begin. -/
theorem transaction_idle_noop_spec :
    commitTransaction none = ([], none) ∧
    rollbackTransaction none = ([], none) ∧
    (∀ u : Unit,
      commitTransaction (some u) = ([DbEvent.commit, DbEvent.release], none) ∧
      rollbackTransaction (some u) = ([DbEvent.rollback, DbEvent.release], none)) :=
  ⟨rfl, rfl, fun _ => ⟨rfl, rfl⟩⟩

/-- C8: create/update/delete put user values only in the out-of-band
parameter list — their SQL text depends only on the field names, never the
values — while find/count pass an empty parameter list and interpolate each
condition value into the text as an escaped literal. -/
theorem value_parameterization_spec (t : String) (id id2 : Int)
    (fields fields' : List (String × Value))
    (hk : fields.map Prod.fst = fields'.map Prod.fst) :
    ((create t fields).1 = (create t fields').1 ∧
      (create t fields).2 = fields.map Prod.snd) ∧
    ((update t id fields).1 = (update t id2 fields').1 ∧
      (update t id fields).2 = fields.map Prod.snd ++ [Value.vInt id]) ∧
    ((delete t id).1 = (delete t id2).1 ∧
      (delete t id).2 = [Value.vInt id]) ∧
    (∀ conds : List (String × Value),
      (find t (some conds) none none none none none).2 = [] ∧
      (count t (some conds)).2 = [] ∧
      conditionString (some conds) =
        "WHERE " ++ String.intercalate " AND "
          (conds.map (fun kv => kv.1 ++ " = " ++ escape kv.2))) :=
  ⟨⟨insertQuery_names_only t fields fields' hk, rfl⟩,
    ⟨updateQuery_names_only t fields fields' hk, rfl⟩,
    ⟨rfl, rfl⟩,
    fun _ => ⟨rfl, rfl, rfl⟩⟩

/-- C8 witness: changing a field's value (string to number) leaves the
INSERT text unchanged; the value only moves through the parameter list. -/
theorem value_parameterization_spec_witness :
    (create "users" [("username", Value.vStr "a")]).1 =
      (create "users" [("username", Value.vInt 5)]).1 ∧
    (create "users" [("username", Value.vStr "a")]).2 =
      [("username", Value.vStr "a")].map Prod.snd := by
  have h := value_parameterization_spec "users" 1 2
    [("username", Value.vStr "a")] [("username", Value.vInt 5)] (by decide)
  exact h.1

/-- C9: the column clause renders nullability as a tri-state —
`nullable = true` emits NULL, absent `nullable` emits NOT NULL, and an
explicit `nullable = false` emits neither — and the CREATE TABLE statement
always starts with the injected `id INT AUTO_INCREMENT PRIMARY KEY` column
ahead of the user-defined columns. -/
theorem createTable_nullability_tristate (entityName : String)
    (f : FieldDefinition) (fields : List (String × FieldDefinition)) :
    ("NULL" ∈ fieldConstraints f ↔ f.nullable = some true) ∧
    ("NOT NULL" ∈ fieldConstraints f ↔ f.nullable = none) ∧
    (f.nullable = some false →
      "NULL" ∉ fieldConstraints f ∧ "NOT NULL" ∉ fieldConstraints f) ∧
    (∃ rest, createTableQuery entityName fields =
      "\n    CREATE TABLE IF NOT EXISTS " ++ entityName ++
        " (\n      id INT AUTO_INCREMENT PRIMARY KEY,\n      " ++ rest) := by
  refine ⟨null_mem_iff f, notnull_mem_iff f, ?_,
    ⟨String.intercalate ", " (fields.map (fun kv => fieldClause kv.1 kv.2)) ++
      "\n    )\n  ", String.append_assoc _ _ _⟩⟩
  intro h
  constructor
  · rw [null_mem_iff, h]
    decide
  · rw [notnull_mem_iff, h]
    decide

/-- C9 witness: an explicit `nullable: false` column carries neither NULL
nor NOT NULL. -/
theorem createTable_nullability_tristate_witness :
    "NULL" ∉ fieldConstraints
      { type := "VARCHAR", size := some 255, nullable := some false } ∧
    "NOT NULL" ∉ fieldConstraints
      { type := "VARCHAR", size := some 255, nullable := some false } :=
  (createTable_nullability_tristate "users"
    { type := "VARCHAR", size := some 255, nullable := some false }
    [("username", { type := "VARCHAR", size := some 255, nullable := some false })]
    ).2.2.1 rfl

/-- C10: constructing a HanORM instance deletes the `sync` and `logging`
keys from the caller's options object and leaves host, user, password,
database and connectionLimit unchanged there. -/
theorem construct_mutates_options_spec (opts : ConnectionOptions) :
    (construct opts).connectionOptions.sync = none ∧
    (construct opts).connectionOptions.logging = none ∧
    (construct opts).connectionOptions.host = opts.host ∧
    (construct opts).connectionOptions.user = opts.user ∧
    (construct opts).connectionOptions.password = opts.password ∧
    (construct opts).connectionOptions.database = opts.database ∧
    (construct opts).connectionOptions.connectionLimit = opts.connectionLimit :=
  ⟨rfl, rfl, rfl, rfl, rfl, rfl, rfl⟩

end HanORM
